import Mathlib

/-
Verification of the Drug Discovery HTTP service (src/backend/main.py).

The service is a thin FastAPI layer: every handler validates its input,
calls external collaborators (the RDKit cheminformatics library, the Gemini
generative model, pandas CSV parsing, Python's json module) and reshapes the
result into a JSON response.  We shallowly embed each handler as a pure Lean
function parameterised by oracles that model the external calls:

  * `ChemEnv` packages the four RDKit entry points the code uses
    (`Chem.MolFromSmiles`, `AllChem.EmbedMolecule`,
    `Chem.rdMolDescriptors.CalcExactMolWt`, `Chem.MolToSmiles`), each of
    which may raise (modelled as `Except String`);
  * the Gemini call `model.generate_content(prompt)` is an oracle
    `String → Except String String` from the prompt to either the response
    text (possibly empty, matching a falsy `response`/`response.text`) or a
    raised exception's message;
  * `json.loads` is an oracle `String → Option JVal` (`none` models
    `json.JSONDecodeError`);
  * `pd.read_csv` together with the NaN-normalisation and `to_json`
    round-trip is modelled by `CsvParse`/`DataFrame`.

An HTTP response is `HttpResult`: either a 200 payload or an
`HTTPException`-style status/detail pair.  Python exceptions that are not
`HTTPException` are `PyErr.other`; each endpoint's outer
`except Exception` handler is `runWithCatchAll` (the three model endpoints
turn them into a 500 whose detail embeds `str(e)`), while `upload_csv`'s own
generic `except Exception` clause turns them into a 400.
-/

set_option autoImplicit false

namespace DrugDiscovery

/-- JSON values, as produced by `json.loads` / consumed by FastAPI's JSON
serialisation.  Rationals stand in for JSON numbers. -/
inductive JVal where
  | null
  | bool (b : Bool)
  | num (q : Rat)
  | str (s : String)
  | arr (elems : List JVal)
  | obj (fields : List (String × JVal))

/-- First value bound to `key` in a JSON object's field list. -/
def lookupField : List (String × JVal) → String → Option JVal
  | [], _ => none
  | (k, v) :: rest, key => if k = key then some v else lookupField rest key

/-- Whether a JSON value is an object carrying a `proteins` key that holds a
list, the shape `{proteins: [...]}` promised for `suggest-proteins`. -/
def JVal.hasProteinsList : JVal → Bool
  | JVal.obj fs =>
    match lookupField fs "proteins" with
    | some (JVal.arr _) => true
    | _ => false
  | _ => false

/-- Result of a handler: a 200 payload, or an `HTTPException` with an HTTP
status code and a detail message. -/
inductive HttpResult (α : Type) where
  | ok (payload : α)
  | error (status : Nat) (detail : String)

/-- A Python exception as seen by a handler's outer `try`:
either a `fastapi.HTTPException` (re-raised verbatim) or any other
exception, identified by its `str(e)` text. -/
inductive PyErr where
  | httpExn (status : Nat) (detail : String)
  | other (msg : String)

/-- Outer exception handling shared by `analyze_molecule`, `discover_drugs`
and `suggest_proteins`: `except HTTPException: raise` passes an
`HTTPException` through, and `except Exception as e` converts anything else
to a 500 whose detail embeds `str(e)`. -/
def runWithCatchAll {α : Type} (body : Except PyErr α) : HttpResult α :=
  match body with
  | Except.ok a => HttpResult.ok a
  | Except.error (PyErr.httpExn s d) => HttpResult.error s d
  | Except.error (PyErr.other m) =>
      HttpResult.error 500 ("An unexpected error occurred: " ++ m)

/-- Whether `needle` occurs as a contiguous substring of the character list,
Python's `needle in hay`. -/
def containsSub (needle : List Char) : List Char → Bool
  | [] => needle.isEmpty
  | c :: rest => needle.isPrefixOf (c :: rest) || containsSub needle rest

/-- Python's substring test `needle in hay` on strings. -/
def strContainsB (hay needle : String) : Bool :=
  containsSub needle.data hay.data

/-- The credential-failure pattern the handlers search for in `str(e)`. -/
def apiKeyNeedle : String := "API key not valid"

/-- The dedicated invalid-credential detail message. -/
def invalidKeyDetail : String :=
  "Invalid API key. Please check your GEMINI_API_KEY environment variable."

/-- Generic failure detail of `analyze_molecule`. -/
def analyzeGenericDetail : String :=
  "Error analyzing molecule with AI. Please try again later."

/-- Generic failure detail of `discover_drugs`. -/
def discoverGenericDetail : String :=
  "Error discovering drugs with AI. Please try again later."

/-- Generic failure detail of `suggest_proteins`. -/
def suggestGenericDetail : String :=
  "Error getting protein suggestions. Please try again later."

/-- Message of the exception each handler raises on a falsy Gemini response
or falsy `response.text`. -/
def emptyRespMsg : String := "Empty response from Gemini API"

/-- Classification done in each handler's `except Exception` around the
Gemini call: a 500 whose detail is the dedicated invalid-credential message
when `str(e)` contains the credential pattern, else the endpoint's generic
message. -/
def geminiFailure (errMsg generic : String) : PyErr :=
  PyErr.httpExn 500
    (if strContainsB errMsg apiKeyNeedle then invalidKeyDetail else generic)

/- ### upload-csv -/

/-- One cell of the parsed table: one of pandas' missing-value markers
(`NaN`, `pd.NA`, `pd.NaT`) or a JSON-representable value. -/
inductive Cell where
  | nan
  | na
  | naT
  | jv (v : JVal)

/-- Whether the cell is one of the missing-value markers that are not
directly JSON-representable. -/
def Cell.isMissing : Cell → Bool
  | Cell.jv _ => false
  | _ => true

/-- Effect of `df.replace({pd.NA: None, pd.NaT: None})`,
`df.where(pd.notnull(df), None)` and `df.to_json` on one cell: every
missing-value marker becomes an explicit JSON null. -/
def normalizeCell : Cell → JVal
  | Cell.jv v => v
  | _ => JVal.null

/-- The in-memory table produced by `pd.read_csv`: header column names and
the data rows. -/
structure DataFrame where
  columns : List String
  rows : List (List Cell)

/-- Outcome of `pd.read_csv(file.file)` on the uploaded bytes:
a parsed frame, `pd.errors.EmptyDataError`, `pd.errors.ParserError`, or any
other exception raised while processing the file. -/
inductive CsvParse where
  | ok (df : DataFrame)
  | emptyData
  | parserError (msg : String)
  | otherError (msg : String)

/-- Successful `upload_csv` response body. -/
structure UploadPayload where
  message : String
  data : List (List (String × JVal))
  row_count : Nat
  columns : List String

/-- The `orient=records` serialisation: one record per row, pairing the
column names with the row's normalised cells. -/
def dataRecords (df : DataFrame) : List (List (String × JVal)) :=
  df.rows.map (fun row => df.columns.zip (row.map normalizeCell))

/-- The `POST /upload-csv` handler (src/backend/main.py lines 78-107). -/
def upload_csv (parseResult : CsvParse) : HttpResult UploadPayload :=
  match parseResult with
  | CsvParse.ok df =>
      HttpResult.ok
        { message := "File uploaded successfully"
          data := dataRecords df
          row_count := df.rows.length
          columns := df.columns }
  | CsvParse.emptyData => HttpResult.error 400 "The uploaded file is empty"
  | CsvParse.parserError m =>
      HttpResult.error 400 ("Error parsing CSV file: " ++ m)
  | CsvParse.otherError m =>
      HttpResult.error 400 ("Error processing CSV file: " ++ m)

/- ### Request bodies (the pydantic models) -/

/-- Request body of `POST /analyze-molecule` (pydantic model `DrugAnalysis`).
The free-form `properties` dict is a JSON object's field list. -/
structure DrugAnalysis where
  molecular_formula : String
  «structure» : String
  properties : List (String × JVal)

/-- Request body of `POST /discover-drugs` (pydantic model
`DiseaseAnalysis`); `target_proteins` defaults to `[]`, `drug_class` to
`None`. -/
structure DiseaseAnalysis where
  disease_name : String
  target_proteins : List String
  drug_class : Option String

/-- Request body of `POST /suggest-proteins` (pydantic model
`ProteinSuggestion`). -/
structure ProteinSuggestion where
  disease_name : String
  drug_class : Option String

/- ### json.dumps, used only to build the analyze-molecule prompt -/

/-- Escaping of one character inside a JSON string literal (the common
cases of Python's `json.dumps`; exotic control and non-ASCII characters are
abstracted as themselves, which no claim observes). -/
def jsonEscapeChar (c : Char) : String :=
  if c = '"' then "\\\""
  else if c = '\\' then "\\\\"
  else if c = '\n' then "\\n"
  else if c = '\t' then "\\t"
  else if c = '\r' then "\\r"
  else String.singleton c

/-- Escape a string's characters for inclusion in a JSON string literal. -/
def jsonEscape (s : String) : String :=
  String.join (s.data.map jsonEscapeChar)

/-- A JSON string literal. -/
def jsonStrLit (s : String) : String :=
  "\"" ++ jsonEscape s ++ "\""

/-- Textual form of a JSON number (rationals abstract Python's float
formatting; no claim observes the prompt text). -/
def numRepr (q : Rat) : String :=
  if q.den = 1 then toString q.num
  else toString q.num ++ "/" ++ toString q.den

mutual

/-- Model of Python's `json.dumps` on a JSON value, with the default
`", "`/`": "` separators. -/
def jsonDumps : JVal → String
  | JVal.null => "null"
  | JVal.bool b => cond b "true" "false"
  | JVal.num q => numRepr q
  | JVal.str s => jsonStrLit s
  | JVal.arr xs => "[" ++ String.intercalate ", " (jsonDumpsList xs) ++ "]"
  | JVal.obj fs =>
      "\x7b" ++ String.intercalate ", " (jsonDumpsFields fs) ++ "\x7d"

/-- `json.dumps` of each element of an array. -/
def jsonDumpsList : List JVal → List String
  | [] => []
  | v :: rest => jsonDumps v :: jsonDumpsList rest

/-- `json.dumps` of each `"key": value` entry of an object. -/
def jsonDumpsFields : List (String × JVal) → List String
  | [] => []
  | (k, v) :: rest => (jsonStrLit k ++ ": " ++ jsonDumps v) :: jsonDumpsFields rest

end

/- ### analyze-molecule -/

/-- The RDKit entry points `analyze_molecule` uses.  Each may raise, which
is modelled by `Except String`; `molFromSmiles` returning `Except.ok none`
is `Chem.MolFromSmiles` returning `None`, and `embedMolecule` takes the
random seed the code passes (always 42). -/
structure ChemEnv (Mol : Type) where
  molFromSmiles : String → Except String (Option Mol)
  embedMolecule : Mol → Nat → Except String Mol
  calcExactMolWt : Mol → Except String Rat
  molToSmiles : Mol → Except String String

/-- Successful `analyze_molecule` response body. -/
structure AnalyzePayload where
  analysis : String
  molecular_weight : Rat
  smiles : String

/-- The f-string prompt built by `analyze_molecule`
(src/backend/main.py lines 134-145). -/
def analyzePrompt (drug : DrugAnalysis) : String :=
  "\n        Analyze this drug molecule:\n        Molecular Formula: "
    ++ drug.molecular_formula
    ++ "\n        Structure: " ++ drug.«structure»
    ++ "\n        Properties: " ++ jsonDumps (JVal.obj drug.properties)
    ++ "\n        \n        Please provide:\n        1. Molecular weight\n        2. Potential drug-likeness\n        3. Possible side effects\n        4. Drug existence prediction\n        "

/-- Body of the `POST /analyze-molecule` handler (src/backend/main.py lines
109-177), before the outer exception handler: validate the structure, parse
it with RDKit, attempt 3D embedding with seed 42 (non-fatal), call Gemini,
compute the exact weight (non-fatal, default 0.0), and answer with the
analysis text, the weight and the canonical SMILES. -/
def analyzeBody {Mol : Type} (env : ChemEnv Mol)
    (gen : String → Except String String) (drug : DrugAnalysis) :
    Except PyErr AnalyzePayload :=
  if drug.«structure» = "" then
    Except.error (PyErr.httpExn 400 "SMILES structure is required")
  else
    match env.molFromSmiles drug.«structure» with
    | Except.error m => Except.error (PyErr.other m)
    | Except.ok none =>
        Except.error (PyErr.httpExn 400
          "Invalid SMILES structure. Please check the format and try again.")
    | Except.ok (some mol) =>
      let mol := match env.embedMolecule mol 42 with
        | Except.ok m2 => m2
        | Except.error _ => mol
      match gen (analyzePrompt drug) with
      | Except.error e => Except.error (geminiFailure e analyzeGenericDetail)
      | Except.ok t =>
        if t = "" then
          Except.error (geminiFailure emptyRespMsg analyzeGenericDetail)
        else
          let mol_weight := match env.calcExactMolWt mol with
            | Except.ok w => w
            | Except.error _ => (0 : Rat)
          match env.molToSmiles mol with
          | Except.error m => Except.error (PyErr.other m)
          | Except.ok smiles =>
              Except.ok
                { analysis := t, molecular_weight := mol_weight,
                  smiles := smiles }

/-- The `POST /analyze-molecule` handler with its outer exception
handling. -/
def analyze_molecule {Mol : Type} (env : ChemEnv Mol)
    (gen : String → Except String String) (drug : DrugAnalysis) :
    HttpResult AnalyzePayload :=
  runWithCatchAll (analyzeBody env gen drug)

/- ### discover-drugs -/

/-- Successful `discover_drugs` response body. -/
structure DiscoverPayload where
  disease : String
  drug_candidates : JVal

/-- The f-string prompt built by `discover_drugs`
(src/backend/main.py lines 193-205). -/
def discoverPrompt (disease : DiseaseAnalysis) : String :=
  "\n        Analyze potential drug candidates for "
    ++ disease.disease_name
    ++ ".\n        Target Proteins: "
    ++ (if disease.target_proteins.isEmpty then "Not specified"
        else String.intercalate ", " disease.target_proteins)
    ++ "\n        Preferred Drug Class: "
    ++ (match disease.drug_class with
        | some c => if c = "" then "Not specified" else c
        | none => "Not specified")
    ++ "\n        \n        Please provide:\n        1. List of potential drug candidates with their SMILES structures\n        2. Molecular formulas\n        3. Target mechanisms\n        4. Potential side effects\n        5. Drug-likeness scores\n        Format the response as a JSON object with these fields.\n        "

/-- The fallback value built when the model's text is not valid JSON
(src/backend/main.py lines 218-227): a single synthetic "Sample Drug"
candidate whose `mechanism` field carries the raw model text. -/
def fallbackDrugCandidates (text : String) : JVal :=
  JVal.obj [("candidates", JVal.arr [JVal.obj
    [("name", JVal.str "Sample Drug"),
     ("smiles", JVal.str "CC(=O)O"),
     ("molecular_formula", JVal.str "C2H4O2"),
     ("mechanism", JVal.str text),
     ("side_effects", JVal.str "Not specified"),
     ("drug_likeness", JVal.str "Not specified")]])]

/-- Body of the `POST /discover-drugs` handler (src/backend/main.py lines
187-245): call Gemini, parse its text as JSON, fall back to the synthetic
candidate on `JSONDecodeError`, and answer with the disease name and the
candidates. -/
def discoverBody (jsonLoads : String → Option JVal)
    (gen : String → Except String String) (disease : DiseaseAnalysis) :
    Except PyErr DiscoverPayload :=
  match gen (discoverPrompt disease) with
  | Except.error e => Except.error (geminiFailure e discoverGenericDetail)
  | Except.ok t =>
    if t = "" then
      Except.error (geminiFailure emptyRespMsg discoverGenericDetail)
    else
      let drug_candidates := match jsonLoads t with
        | some v => v
        | none => fallbackDrugCandidates t
      Except.ok
        { disease := disease.disease_name, drug_candidates := drug_candidates }

/-- The `POST /discover-drugs` handler with its outer exception handling. -/
def discover_drugs (jsonLoads : String → Option JVal)
    (gen : String → Except String String) (disease : DiseaseAnalysis) :
    HttpResult DiscoverPayload :=
  runWithCatchAll (discoverBody jsonLoads gen disease)

/- ### suggest-proteins -/

/-- The f-string prompt built by `suggest_proteins`
(src/backend/main.py lines 261-281). -/
def suggestPrompt (suggestion : ProteinSuggestion) : String :=
  "\n        For the disease \x27" ++ suggestion.disease_name ++ "\x27"
    ++ (match suggestion.drug_class with
        | some c =>
            if c = "" then "" else " and drug class \x27" ++ c ++ "\x27"
        | none => "")
    ++ ", \n        suggest relevant target proteins that could be used for drug development.\n        \n        Please provide:\n        1. A list of protein names and their UniProt IDs\n        2. Brief description of their role in the disease\n        3. Their potential as drug targets\n        \n        Format the response as a JSON object with these fields:\n        \x7b\n            \"proteins\": [\n                \x7b\n                    \"name\": \"protein name\",\n                    \"uniprot_id\": \"UniProt ID\",\n                    \"role\": \"role in disease\",\n                    \"target_potential\": \"high/medium/low\"\n                \x7d\n            ]\n        \x7d\n        "

/-- The fallback value built when the model's text is not valid JSON
(src/backend/main.py lines 294-301): a single synthetic "Sample Protein"
record whose `role` field carries the raw model text. -/
def fallbackProteins (text : String) : JVal :=
  JVal.obj [("proteins", JVal.arr [JVal.obj
    [("name", JVal.str "Sample Protein"),
     ("uniprot_id", JVal.str "P12345"),
     ("role", JVal.str text),
     ("target_potential", JVal.str "medium")]])]

/-- Body of the `POST /suggest-proteins` handler (src/backend/main.py lines
255-324): call Gemini, parse its text as JSON, fall back to the synthetic
record on `JSONDecodeError`, and return the resulting value directly. -/
def suggestBody (jsonLoads : String → Option JVal)
    (gen : String → Except String String) (suggestion : ProteinSuggestion) :
    Except PyErr JVal :=
  match gen (suggestPrompt suggestion) with
  | Except.error e => Except.error (geminiFailure e suggestGenericDetail)
  | Except.ok t =>
    if t = "" then
      Except.error (geminiFailure emptyRespMsg suggestGenericDetail)
    else
      let protein_suggestions := match jsonLoads t with
        | some v => v
        | none => fallbackProteins t
      Except.ok protein_suggestions

/-- The `POST /suggest-proteins` handler with its outer exception
handling. -/
def suggest_proteins (jsonLoads : String → Option JVal)
    (gen : String → Except String String) (suggestion : ProteinSuggestion) :
    HttpResult JVal :=
  runWithCatchAll (suggestBody jsonLoads gen suggestion)

/- ### Concrete instances used to exercise the handlers -/

/-- A molecule-analysis request with an empty `structure` field. -/
def emptyStructureDrug : DrugAnalysis :=
  { molecular_formula := "C2H4O2", «structure» := "", properties := [] }

/-- A molecule-analysis request whose `structure` is not valid SMILES. -/
def badStructureDrug : DrugAnalysis :=
  { molecular_formula := "X", «structure» := "not-a-smiles", properties := [] }

/-- Acetic acid, the spec's worked example. -/
def aceticAcidDrug : DrugAnalysis :=
  { molecular_formula := "C2H4O2", «structure» := "CC(=O)O", properties := [] }

/-- A disease-analysis request. -/
def sampleDisease : DiseaseAnalysis :=
  { disease_name := "influenza", target_proteins := [], drug_class := none }

/-- A protein-suggestion request. -/
def sampleSuggestion : ProteinSuggestion :=
  { disease_name := "influenza", drug_class := none }

/-- An RDKit model in which `MolFromSmiles` returns `None` on every input. -/
def rejectingChemEnv : ChemEnv Unit :=
  { molFromSmiles := fun _ => Except.ok none
    embedMolecule := fun _ _ => Except.ok ()
    calcExactMolWt := fun _ => Except.ok 0
    molToSmiles := fun _ => Except.ok "" }

/-- An RDKit model in which every call succeeds. -/
def okChemEnv : ChemEnv Unit :=
  { molFromSmiles := fun _ => Except.ok (some ())
    embedMolecule := fun _ _ => Except.ok ()
    calcExactMolWt := fun _ => Except.ok 60
    molToSmiles := fun _ => Except.ok "CC(=O)O" }

/- ### Claim theorems -/

/-- Claim C2: an `analyze-molecule` request whose `structure` is the empty
string, or for which the SMILES parser returns no molecule, is answered with
HTTP 400 and a descriptive message (so in particular never with a success
payload, since `HttpResult.error 400 _` is not `HttpResult.ok _`). -/
theorem analyze_molecule_rejects_client_errors {Mol : Type} (env : ChemEnv Mol)
    (gen : String → Except String String) (drug : DrugAnalysis)
    (h : drug.«structure» = "" ∨
      env.molFromSmiles drug.«structure» = Except.ok none) :
    analyze_molecule env gen drug =
      HttpResult.error 400
        (if drug.«structure» = "" then "SMILES structure is required"
         else "Invalid SMILES structure. Please check the format and try again.") := by
  by_cases hs : drug.«structure» = ""
  · simp [analyze_molecule, analyzeBody, runWithCatchAll, hs]
  · rcases h with h | h
    · exact absurd h hs
    · simp [analyze_molecule, analyzeBody, runWithCatchAll, hs, h]

/-- Witness for C2: the concrete invalid-SMILES request is rejected with a
400 and the invalid-structure message. -/
theorem analyze_molecule_rejects_client_errors_witness :
    analyze_molecule rejectingChemEnv (fun _ => Except.ok "text")
        badStructureDrug =
      HttpResult.error 400
        (if badStructureDrug.«structure» = "" then "SMILES structure is required"
         else "Invalid SMILES structure. Please check the format and try again.") :=
  analyze_molecule_rejects_client_errors rejectingChemEnv
    (fun _ => Except.ok "text") badStructureDrug (Or.inr rfl)

/-- Claim C6: `upload-csv` answers an empty upload with a 400 saying the
file is empty, and a parsed table with a payload whose `row_count` is the
number of parsed rows and whose `columns` is the header in order. -/
theorem upload_csv_empty_and_counts (df : DataFrame) :
    upload_csv CsvParse.emptyData =
      HttpResult.error 400 "The uploaded file is empty" ∧
    ∃ pay, upload_csv (CsvParse.ok df) = HttpResult.ok pay ∧
      pay.row_count = df.rows.length ∧ pay.columns = df.columns :=
  ⟨rfl, _, rfl, rfl, rfl⟩

/-- Claim C7: in a successful `upload-csv` response every cell of every
record is the `normalizeCell` image of the parsed cell, and `normalizeCell`
sends each of the three missing-value markers (`NaN`, `pd.NA`, `pd.NaT`) to
the explicit JSON null; the record type `List (String × JVal)` contains no
missing-value marker at all. -/
theorem upload_csv_normalizes_missing_values (df : DataFrame) :
    (∃ pay, upload_csv (CsvParse.ok df) = HttpResult.ok pay ∧
       pay.data =
         df.rows.map (fun row => df.columns.zip (row.map normalizeCell))) ∧
    normalizeCell Cell.nan = JVal.null ∧
    normalizeCell Cell.na = JVal.null ∧
    normalizeCell Cell.naT = JVal.null :=
  ⟨⟨_, rfl, rfl⟩, rfl, rfl, rfl⟩

/-- Claim C10: when `analyze-molecule` rejects a request as a client error
(empty structure or unparsable SMILES), the response does not depend on the
generative-model oracle at all — the validation happens strictly before the
model call — and is the 400 rejection. -/
theorem analyze_molecule_client_error_independent_of_model {Mol : Type}
    (env : ChemEnv Mol) (g1 g2 : String → Except String String)
    (drug : DrugAnalysis)
    (h : drug.«structure» = "" ∨
      env.molFromSmiles drug.«structure» = Except.ok none) :
    analyze_molecule env g1 drug = analyze_molecule env g2 drug ∧
    analyze_molecule env g1 drug =
      HttpResult.error 400
        (if drug.«structure» = "" then "SMILES structure is required"
         else "Invalid SMILES structure. Please check the format and try again.") := by
  by_cases hs : drug.«structure» = ""
  · constructor <;> simp [analyze_molecule, analyzeBody, runWithCatchAll, hs]
  · rcases h with h | h
    · exact absurd h hs
    · constructor <;>
        simp [analyze_molecule, analyzeBody, runWithCatchAll, hs, h]

/-- Witness for C10: with an unparsable concrete structure, two
generative-model oracles with different behaviour produce the same
400 response. -/
theorem analyze_molecule_client_error_independent_of_model_witness :
    analyze_molecule rejectingChemEnv (fun _ => Except.ok "a") badStructureDrug =
      analyze_molecule rejectingChemEnv (fun _ => Except.error "down")
        badStructureDrug ∧
    analyze_molecule rejectingChemEnv (fun _ => Except.ok "a") badStructureDrug =
      HttpResult.error 400
        (if badStructureDrug.«structure» = "" then "SMILES structure is required"
         else "Invalid SMILES structure. Please check the format and try again.") :=
  analyze_molecule_client_error_independent_of_model rejectingChemEnv
    (fun _ => Except.ok "a") (fun _ => Except.error "down") badStructureDrug
    (Or.inr rfl)

/-- Claim C1: when the model call succeeds with non-empty text that
`json.loads` rejects, `discover-drugs` and `suggest-proteins` still answer
200, with a single-element fallback list — a "Sample Drug" candidate whose
`mechanism` is the raw model text, respectively a "Sample Protein" record
whose `role` is the raw model text. -/
theorem fallback_record_on_nonjson_model_text
    (jsonLoads : String → Option JVal) (gen : String → Except String String)
    (disease : DiseaseAnalysis) (suggestion : ProteinSuggestion) (t : String)
    (ht : t ≠ "")
    (hd : gen (discoverPrompt disease) = Except.ok t)
    (hp : gen (suggestPrompt suggestion) = Except.ok t)
    (hj : jsonLoads t = none) :
    discover_drugs jsonLoads gen disease =
      HttpResult.ok
        { disease := disease.disease_name
          drug_candidates := fallbackDrugCandidates t } ∧
    suggest_proteins jsonLoads gen suggestion =
      HttpResult.ok (fallbackProteins t) ∧
    fallbackDrugCandidates t = JVal.obj [("candidates", JVal.arr [JVal.obj
      [("name", JVal.str "Sample Drug"), ("smiles", JVal.str "CC(=O)O"),
       ("molecular_formula", JVal.str "C2H4O2"), ("mechanism", JVal.str t),
       ("side_effects", JVal.str "Not specified"),
       ("drug_likeness", JVal.str "Not specified")]])] ∧
    fallbackProteins t = JVal.obj [("proteins", JVal.arr [JVal.obj
      [("name", JVal.str "Sample Protein"), ("uniprot_id", JVal.str "P12345"),
       ("role", JVal.str t), ("target_potential", JVal.str "medium")]])] := by
  refine ⟨?_, ?_, rfl, rfl⟩
  · simp [discover_drugs, discoverBody, runWithCatchAll, hd, ht, hj]
  · simp [suggest_proteins, suggestBody, runWithCatchAll, hp, ht, hj]

/-- Witness for C1: a concrete non-JSON model text is wrapped into the two
fallback records. -/
theorem fallback_record_on_nonjson_model_text_witness :
    discover_drugs (fun _ => none) (fun _ => Except.ok "raw model text")
        sampleDisease =
      HttpResult.ok
        { disease := sampleDisease.disease_name
          drug_candidates := fallbackDrugCandidates "raw model text" } ∧
    suggest_proteins (fun _ => none) (fun _ => Except.ok "raw model text")
        sampleSuggestion =
      HttpResult.ok (fallbackProteins "raw model text") ∧
    fallbackDrugCandidates "raw model text" =
      JVal.obj [("candidates", JVal.arr [JVal.obj
        [("name", JVal.str "Sample Drug"), ("smiles", JVal.str "CC(=O)O"),
         ("molecular_formula", JVal.str "C2H4O2"),
         ("mechanism", JVal.str "raw model text"),
         ("side_effects", JVal.str "Not specified"),
         ("drug_likeness", JVal.str "Not specified")]])] ∧
    fallbackProteins "raw model text" =
      JVal.obj [("proteins", JVal.arr [JVal.obj
        [("name", JVal.str "Sample Protein"),
         ("uniprot_id", JVal.str "P12345"),
         ("role", JVal.str "raw model text"),
         ("target_potential", JVal.str "medium")]])] :=
  fallback_record_on_nonjson_model_text (fun _ => none)
    (fun _ => Except.ok "raw model text") sampleDisease sampleSuggestion
    "raw model text" (by decide) rfl rfl rfl

/-- Claim C3: when the model call fails with error text `msg`, each of the
three model endpoints answers 500, with the dedicated invalid-API-key detail
exactly when `msg` contains "API key not valid" and with the endpoint's
generic detail otherwise; the invalid-key detail differs from every generic
detail, so a credential error is never mapped to a generic message. -/
theorem gemini_failure_classification {Mol : Type} (env : ChemEnv Mol)
    (jsonLoads : String → Option JVal) (gen : String → Except String String)
    (msg : String) (drug : DrugAnalysis) (disease : DiseaseAnalysis)
    (suggestion : ProteinSuggestion) (m : Mol)
    (hs : drug.«structure» ≠ "")
    (hmol : env.molFromSmiles drug.«structure» = Except.ok (some m))
    (h1 : gen (analyzePrompt drug) = Except.error msg)
    (h2 : gen (discoverPrompt disease) = Except.error msg)
    (h3 : gen (suggestPrompt suggestion) = Except.error msg) :
    analyze_molecule env gen drug =
      HttpResult.error 500
        (if strContainsB msg apiKeyNeedle then invalidKeyDetail
         else analyzeGenericDetail) ∧
    discover_drugs jsonLoads gen disease =
      HttpResult.error 500
        (if strContainsB msg apiKeyNeedle then invalidKeyDetail
         else discoverGenericDetail) ∧
    suggest_proteins jsonLoads gen suggestion =
      HttpResult.error 500
        (if strContainsB msg apiKeyNeedle then invalidKeyDetail
         else suggestGenericDetail) ∧
    invalidKeyDetail ≠ analyzeGenericDetail ∧
    invalidKeyDetail ≠ discoverGenericDetail ∧
    invalidKeyDetail ≠ suggestGenericDetail := by
  refine ⟨?_, ?_, ?_, by decide, by decide, by decide⟩
  · cases he : env.embedMolecule m 42 <;>
      simp [analyze_molecule, analyzeBody, runWithCatchAll, geminiFailure,
        hs, hmol, h1, he]
  · simp [discover_drugs, discoverBody, runWithCatchAll, geminiFailure, h2]
  · simp [suggest_proteins, suggestBody, runWithCatchAll, geminiFailure, h3]

/-- Witness for C3: a concrete model failure whose text is exactly the
credential pattern maps every endpoint to the invalid-key 500. -/
theorem gemini_failure_classification_witness :
    analyze_molecule okChemEnv (fun _ => Except.error "API key not valid")
        aceticAcidDrug =
      HttpResult.error 500
        (if strContainsB "API key not valid" apiKeyNeedle then invalidKeyDetail
         else analyzeGenericDetail) ∧
    discover_drugs (fun _ => none) (fun _ => Except.error "API key not valid")
        sampleDisease =
      HttpResult.error 500
        (if strContainsB "API key not valid" apiKeyNeedle then invalidKeyDetail
         else discoverGenericDetail) ∧
    suggest_proteins (fun _ => none)
        (fun _ => Except.error "API key not valid") sampleSuggestion =
      HttpResult.error 500
        (if strContainsB "API key not valid" apiKeyNeedle then invalidKeyDetail
         else suggestGenericDetail) ∧
    invalidKeyDetail ≠ analyzeGenericDetail ∧
    invalidKeyDetail ≠ discoverGenericDetail ∧
    invalidKeyDetail ≠ suggestGenericDetail :=
  gemini_failure_classification okChemEnv (fun _ => none)
    (fun _ => Except.error "API key not valid") "API key not valid"
    aceticAcidDrug sampleDisease sampleSuggestion () (by decide) rfl rfl rfl rfl

/-- Claim C5: with a validly parsed structure, a failing 3D embedding is
non-fatal (the request completes, computed on the unembedded molecule), and
a failing exact-weight calculation is non-fatal with the returned
`molecular_weight` defaulting to 0.0.  The two scenarios are exercised on
two RDKit environments. -/
theorem analyze_molecule_degrades_gracefully {Mol : Type}
    (env1 env2 : ChemEnv Mol) (gen : String → Except String String)
    (drug : DrugAnalysis) (m1 m2 m3 : Mol) (e1 e2 : String) (w : Rat)
    (t s1 s2 : String)
    (hs : drug.«structure» ≠ "") (ht : t ≠ "")
    (hgen : gen (analyzePrompt drug) = Except.ok t)
    (h1m : env1.molFromSmiles drug.«structure» = Except.ok (some m1))
    (h1e : env1.embedMolecule m1 42 = Except.error e1)
    (h1w : env1.calcExactMolWt m1 = Except.ok w)
    (h1s : env1.molToSmiles m1 = Except.ok s1)
    (h2m : env2.molFromSmiles drug.«structure» = Except.ok (some m2))
    (h2e : env2.embedMolecule m2 42 = Except.ok m3)
    (h2w : env2.calcExactMolWt m3 = Except.error e2)
    (h2s : env2.molToSmiles m3 = Except.ok s2) :
    analyze_molecule env1 gen drug =
      HttpResult.ok { analysis := t, molecular_weight := w, smiles := s1 } ∧
    analyze_molecule env2 gen drug =
      HttpResult.ok { analysis := t, molecular_weight := 0, smiles := s2 } := by
  constructor
  · simp [analyze_molecule, analyzeBody, runWithCatchAll, hs, h1m, h1e,
      hgen, ht, h1w, h1s]
  · simp [analyze_molecule, analyzeBody, runWithCatchAll, hs, h2m, h2e,
      hgen, ht, h2w, h2s]

/-- RDKit model whose 3D embedding raises. -/
def embedFailEnv : ChemEnv Unit :=
  { molFromSmiles := fun _ => Except.ok (some ())
    embedMolecule := fun _ _ => Except.error "embedding failed"
    calcExactMolWt := fun _ => Except.ok 60
    molToSmiles := fun _ => Except.ok "CC(=O)O" }

/-- RDKit model whose exact-weight calculation raises. -/
def weightFailEnv : ChemEnv Unit :=
  { molFromSmiles := fun _ => Except.ok (some ())
    embedMolecule := fun _ _ => Except.ok ()
    calcExactMolWt := fun _ => Except.error "weight failed"
    molToSmiles := fun _ => Except.ok "CC(=O)O" }

/-- Witness for C5: on concrete environments, the embed-failure request
completes with the computed weight, and the weight-failure request completes
with weight 0. -/
theorem analyze_molecule_degrades_gracefully_witness :
    analyze_molecule embedFailEnv (fun _ => Except.ok "analysis")
        aceticAcidDrug =
      HttpResult.ok
        { analysis := "analysis", molecular_weight := 60,
          smiles := "CC(=O)O" } ∧
    analyze_molecule weightFailEnv (fun _ => Except.ok "analysis")
        aceticAcidDrug =
      HttpResult.ok
        { analysis := "analysis", molecular_weight := 0,
          smiles := "CC(=O)O" } :=
  analyze_molecule_degrades_gracefully embedFailEnv weightFailEnv
    (fun _ => Except.ok "analysis") aceticAcidDrug () () ()
    "embedding failed" "weight failed" 60 "analysis" "CC(=O)O" "CC(=O)O"
    (by decide) (by decide) rfl rfl rfl rfl rfl rfl rfl rfl rfl

/-- Claim C9: the `analyze-molecule` handler is deterministic in the request
and the oracles.  The embedding makes this structural: the handler is a pure
function, and its only randomised collaborator, 3D embedding, is always
invoked at the fixed seed 42 (`env.embedMolecule mol 42` in `analyzeBody`),
so holding the RDKit library and the model's response fixed, two calls with
identical bodies yield identical `smiles` and `molecular_weight` fields. -/
theorem analyze_molecule_deterministic {Mol : Type} (env : ChemEnv Mol)
    (gen : String → Except String String) (drug : DrugAnalysis)
    (p1 p2 : AnalyzePayload)
    (h1 : analyze_molecule env gen drug = HttpResult.ok p1)
    (h2 : analyze_molecule env gen drug = HttpResult.ok p2) :
    p1.smiles = p2.smiles ∧ p1.molecular_weight = p2.molecular_weight := by
  rw [h1] at h2
  injection h2 with h
  subst h
  exact ⟨rfl, rfl⟩

/-- Witness for C9: two identical concrete calls produce one payload, whose
fields therefore agree with themselves. -/
theorem analyze_molecule_deterministic_witness :
    ({ analysis := "text", molecular_weight := 60,
       smiles := "CC(=O)O" } : AnalyzePayload).smiles =
      ({ analysis := "text", molecular_weight := 60,
         smiles := "CC(=O)O" } : AnalyzePayload).smiles ∧
    ({ analysis := "text", molecular_weight := 60,
       smiles := "CC(=O)O" } : AnalyzePayload).molecular_weight =
      ({ analysis := "text", molecular_weight := 60,
         smiles := "CC(=O)O" } : AnalyzePayload).molecular_weight :=
  analyze_molecule_deterministic okChemEnv (fun _ => Except.ok "text")
    aceticAcidDrug _ _ rfl rfl

/-- Counterexample to claim C4: `upload_csv`'s generic `except Exception`
clause (src/backend/main.py lines 105-107) surfaces an unexpected exception
as HTTP 400 — a 4xx, not a 5xx — and its detail embeds the exception text
`str(e)`. -/
theorem upload_csv_unexpected_exception_counterexample :
    upload_csv (CsvParse.otherError "boom") =
      HttpResult.error 400 ("Error processing CSV file: " ++ "boom") := rfl

/-- Amended C4: in the three model endpoints an unexpected exception is
surfaced as a 500, but with a detail embedding the exception text
("An unexpected error occurred: " ++ `str(e)`), while in `upload-csv` an
unexpected exception is surfaced as a 400 whose detail also embeds the
exception text. -/
theorem unexpected_exception_statuses {Mol : Type} (env : ChemEnv Mol)
    (gen : String → Except String String) (drug : DrugAnalysis) (m : String)
    (hs : drug.«structure» ≠ "")
    (hmol : env.molFromSmiles drug.«structure» = Except.error m) :
    analyze_molecule env gen drug =
      HttpResult.error 500 ("An unexpected error occurred: " ++ m) ∧
    upload_csv (CsvParse.otherError m) =
      HttpResult.error 400 ("Error processing CSV file: " ++ m) := by
  constructor
  · simp [analyze_molecule, analyzeBody, runWithCatchAll, hs, hmol]
  · rfl

/-- RDKit model whose SMILES parsing call itself raises. -/
def raisingChemEnv : ChemEnv Unit :=
  { molFromSmiles := fun _ => Except.error "rdkit crashed"
    embedMolecule := fun _ _ => Except.ok ()
    calcExactMolWt := fun _ => Except.ok 0
    molToSmiles := fun _ => Except.ok "" }

/-- Witness for amended C4: a concrete raising library call is surfaced as a
500 embedding the exception text by `analyze-molecule`, and as a 400
embedding the exception text by `upload-csv`. -/
theorem unexpected_exception_statuses_witness :
    analyze_molecule raisingChemEnv (fun _ => Except.ok "text")
        aceticAcidDrug =
      HttpResult.error 500 ("An unexpected error occurred: " ++ "rdkit crashed") ∧
    upload_csv (CsvParse.otherError "rdkit crashed") =
      HttpResult.error 400 ("Error processing CSV file: " ++ "rdkit crashed") :=
  unexpected_exception_statuses raisingChemEnv (fun _ => Except.ok "text")
    aceticAcidDrug "rdkit crashed" (by decide) rfl

/-- Counterexample to claim C8: when the model's text parses as JSON that is
not an object with a `proteins` list — here the valid JSON text "42" —
`suggest-proteins` answers 200 with the parsed value verbatim, which does
not have the `{proteins: [...]}` shape. -/
theorem suggest_proteins_shape_counterexample :
    suggest_proteins (fun _ => some (JVal.num 42)) (fun _ => Except.ok "42")
        sampleSuggestion =
      HttpResult.ok (JVal.num 42) ∧
    JVal.hasProteinsList (JVal.num 42) = false := ⟨rfl, rfl⟩

/-- Amended C8: a 200 response of `suggest-proteins` has the
`{proteins: [...]}` shape on the fallback path (non-JSON model text), but
when the model's text parses as JSON the parsed value is returned verbatim,
whatever its shape. -/
theorem suggest_proteins_response_shape (jp1 jp2 : String → Option JVal)
    (gen : String → Except String String) (suggestion : ProteinSuggestion)
    (t : String) (v : JVal)
    (ht : t ≠ "")
    (hgen : gen (suggestPrompt suggestion) = Except.ok t)
    (hn : jp1 t = none) (hv : jp2 t = some v) :
    suggest_proteins jp1 gen suggestion =
      HttpResult.ok (fallbackProteins t) ∧
    JVal.hasProteinsList (fallbackProteins t) = true ∧
    suggest_proteins jp2 gen suggestion = HttpResult.ok v := by
  refine ⟨?_, rfl, ?_⟩
  · simp [suggest_proteins, suggestBody, runWithCatchAll, hgen, ht, hn]
  · simp [suggest_proteins, suggestBody, runWithCatchAll, hgen, ht, hv]

/-- Witness for amended C8: a concrete non-JSON text takes the fallback
shape, and a concrete parsed value is passed through verbatim. -/
theorem suggest_proteins_response_shape_witness :
    suggest_proteins (fun _ => none) (fun _ => Except.ok "plain prose")
        sampleSuggestion =
      HttpResult.ok (fallbackProteins "plain prose") ∧
    JVal.hasProteinsList (fallbackProteins "plain prose") = true ∧
    suggest_proteins (fun _ => some (JVal.str "hello"))
        (fun _ => Except.ok "plain prose") sampleSuggestion =
      HttpResult.ok (JVal.str "hello") :=
  suggest_proteins_response_shape (fun _ => none)
    (fun _ => some (JVal.str "hello")) (fun _ => Except.ok "plain prose")
    sampleSuggestion "plain prose" (JVal.str "hello") (by decide) rfl rfl rfl

end DrugDiscovery
